import Mathlib

/-!
Shallow embedding of `yellowbrick/regressor/residuals.py`: the
`PredictionError` and `ResidualsPlot` regression visualizers and their
quick-method wrappers `prediction_error` and `residuals_plot`.

Numeric arrays are modelled as `List ℚ`; the feature matrix type is an
abstract parameter `X`.  The matplotlib axes object is modelled as an
explicit record of the marks and decorations drawn on it; every mutating
matplotlib call becomes a function from `Axes` to `Axes`.  Operations that
raise in Python (numpy `min`/`max` of an empty array, elementwise
subtraction of arrays of different lengths) return `Option`.

External collaborators that are not part of this source file (the shared
`RegressionScoreVisualizer` base class, `draw_best_fit`, `LINE_COLOR`,
`train_test_split`) are modelled from the specification; each such
definition carries a doc comment saying so.
-/

namespace Yellowbrick

/-- A matplotlib color value, modelled as an opaque string token. -/
abbrev Color := String

/-- Keyword arguments relevant to the visualizers: a finite map from
keyword name to color value, modelled as an association list (Python
dict keys are unique; `List.lookup` takes the first binding). -/
abbrev Kwargs := List (String × Color)

/-- One scatter series as recorded by `ax.scatter(xs, ys, c=..., s=...,
alpha=...)`: point `i` of the series is `(xs[i], ys[i])`. -/
structure ScatterSeries where
  xs : List ℚ
  ys : List ℚ
  c : Option Color
  s : Option ℚ
  alpha : Option ℚ
deriving DecidableEq

/-- A best-fit trend line drawn by the external `draw_best_fit` helper,
recorded with its input sequences, fit-method tag and style. -/
structure BestFitLine where
  xs : List ℚ
  ys : List ℚ
  method : String
  ls : String
  lw : ℚ
  c : Color
deriving DecidableEq

/-- A full-width horizontal reference line drawn by `ax.axhline`. -/
structure HLine where
  y : ℚ
  c : Color
deriving DecidableEq

/-- A legend as set by `ax.legend(labels, loc=..., frameon=...)`. -/
structure Legend where
  labels : List String
  loc : String
  frameon : Bool
deriving DecidableEq

/-- The drawing surface: a matplotlib `Axes` modelled as the accumulated
marks (scatter series, best-fit lines, horizontal lines, in drawing
order) together with its decorations (limits, title, labels, legend). -/
structure Axes where
  scatters : List ScatterSeries
  bestFits : List BestFitLine
  hlines : List HLine
  xlim : Option (ℚ × ℚ)
  ylim : Option (ℚ × ℚ)
  title : Option String
  xlabel : Option String
  ylabel : Option String
  legend : Option Legend
deriving DecidableEq

/-- A fresh axes object with nothing drawn on it. -/
def emptyAxes : Axes :=
  { scatters := [], bestFits := [], hlines := [], xlim := none, ylim := none,
    title := none, xlabel := none, ylabel := none, legend := none }

/-- `ax.scatter(xs, ys, c=c, s=s, alpha=alpha)`: appends one scatter
series to the surface. -/
def Axes.scatter (ax : Axes) (xs ys : List ℚ) (c : Option Color)
    (s : Option ℚ) (alpha : Option ℚ) : Axes :=
  { ax with scatters := ax.scatters ++ [⟨xs, ys, c, s, alpha⟩] }

/-- `ax.set_xlim(lo, hi)`: replaces the visible x-range. -/
def Axes.set_xlim (ax : Axes) (lo hi : ℚ) : Axes :=
  { ax with xlim := some (lo, hi) }

/-- `ax.set_ylim(lo, hi)`: replaces the visible y-range. -/
def Axes.set_ylim (ax : Axes) (lo hi : ℚ) : Axes :=
  { ax with ylim := some (lo, hi) }

/-- `ax.set_xlabel(t)`: replaces the x-axis label. -/
def Axes.set_xlabel (ax : Axes) (t : String) : Axes :=
  { ax with xlabel := some t }

/-- `ax.set_ylabel(t)`: replaces the y-axis label. -/
def Axes.set_ylabel (ax : Axes) (t : String) : Axes :=
  { ax with ylabel := some t }

/-- `ax.legend(labels, loc=loc, frameon=frameon)`: replaces the legend. -/
def Axes.set_legend (ax : Axes) (labels : List String) (loc : String)
    (frameon : Bool) : Axes :=
  { ax with legend := some ⟨labels, loc, frameon⟩ }

/-- `ax.axhline(y=y, c=c)`: appends a full-width horizontal line. -/
def Axes.axhline (ax : Axes) (y : ℚ) (c : Color) : Axes :=
  { ax with hlines := ax.hlines ++ [⟨y, c⟩] }

/-- Modelled from the spec: the base visualizer's title setter
(`self.set_title`, provided by the excluded shared base class); each
call overwrites, not accumulates, the surface title. -/
def Axes.set_title (ax : Axes) (t : String) : Axes :=
  { ax with title := some t }

/-- Modelled from the spec: the external regression estimator interface —
a display name, `predict(X) -> predictions` and `score(X, y) -> float`.
Its `fit` mutates external state and is modelled separately as a
function `Estimator X → X → List ℚ → Estimator X` supplied by callers. -/
structure Estimator (X : Type) where
  name : String
  predict : X → List ℚ
  score : X → List ℚ → ℚ

/-- Modelled from the spec: `LINE_COLOR`, the dark-grey default line
color imported from the external style palette module. -/
def LINE_COLOR : Color := "darkgrey"

/-- `numpy` elementwise subtraction of two equal-length arrays
(`y_pred - y`); `none` models the shape error the numeric backend
raises on mismatched lengths. -/
def npSub : List ℚ → List ℚ → Option (List ℚ)
  | [], [] => some []
  | a :: xs, b :: ys => (npSub xs ys).map (fun r => (a - b) :: r)
  | _, _ => none

/-- `ndarray.min()`: `none` models the error raised on an empty array. -/
def npMin : List ℚ → Option ℚ
  | [] => none
  | x :: xs => some (xs.foldl min x)

/-- `ndarray.max()`: `none` models the error raised on an empty array. -/
def npMax : List ℚ → Option ℚ
  | [] => none
  | x :: xs => some (xs.foldl max x)

/-- Modelled from the spec: the external `draw_best_fit` helper — given
two numeric sequences, a surface, a fit-method tag and style parameters,
it draws a fitted trend line onto the surface; modelled as recording the
drawn line with its inputs and style. -/
def draw_best_fit (x y : List ℚ) (ax : Axes) (method : String)
    (ls : String) (lw : ℚ) (c : Color) : Axes :=
  { ax with bestFits := ax.bestFits ++ [⟨x, y, method, ls, lw, c⟩] }

/-- The color configuration of `PredictionError`: `point` defaults to
`None`, `line` defaults to `LINE_COLOR`. -/
structure PEColors where
  point : Option Color
  line : Color
deriving DecidableEq

/-- The state of a `PredictionError` visualizer instance: the wrapped
estimator, the drawing surface, the color configuration and the display
name (derived by the base class from the estimator). -/
structure PredictionError (X : Type) where
  estimator : Estimator X
  ax : Axes
  colors : PEColors
  name : String

/-- `PredictionError.__init__(model, ax, **kwargs)`: invokes the base
initializer with the full keyword set (the first component of the
result records what the base initializer received), then populates
`self.colors` by popping `point_color` (default `None`) and
`line_color` (default `LINE_COLOR`) from its local keyword dict. -/
def PredictionError.init {X : Type} (model : Estimator X) (ax : Axes)
    (kwargs : Kwargs) : Kwargs × PredictionError X :=
  (kwargs,
   { estimator := model, ax := ax, name := model.name,
     colors := { point := List.lookup "point_color" kwargs,
                 line := (List.lookup "line_color" kwargs).getD LINE_COLOR } })

/-- Modelled from the spec: the shared base visualizer's `predict`,
inherited by both visualizers; it delegates to the wrapped estimator. -/
def PredictionError.predict {X : Type} (v : PredictionError X) (Xd : X) :
    List ℚ :=
  v.estimator.predict Xd

/-- Modelled from the spec: the shared base visualizer's `fit`,
inherited unchanged by `PredictionError`; it delegates to the external
estimator-fitting behavior `fitEst` and draws nothing. -/
def PredictionError.fit {X : Type} (fitEst : Estimator X → X → List ℚ → Estimator X)
    (v : PredictionError X) (Xd : X) (y : List ℚ) : PredictionError X :=
  { v with estimator := fitEst v.estimator Xd y }

/-- `PredictionError.draw(y, y_pred)`: scatters `(y, y_pred)` in the
configured point color, overlays a linear best-fit line in the
configured line color, then sets the x-range to
`[y.min()-1, y.max()+1]` and the y-range to
`[y_pred.min()-1, y_pred.max()+1]`; `none` models the error raised on
an empty input array. -/
def PredictionError.draw {X : Type} (v : PredictionError X)
    (y y_pred : List ℚ) : Option (PredictionError X) :=
  match npMin y, npMax y, npMin y_pred, npMax y_pred with
  | some ymin, some ymax, some pmin, some pmax =>
    let ax1 := v.ax.scatter y y_pred v.colors.point none none
    let ax2 := draw_best_fit y y_pred ax1 "linear" "--" 2 v.colors.line
    let ax3 := (ax2.set_xlim (ymin - 1) (ymax + 1)).set_ylim (pmin - 1) (pmax + 1)
    some { v with ax := ax3 }
  | _, _, _, _ => none

/-- `PredictionError.score(X, y)`: computes `y_pred = self.predict(X)`,
calls `self.draw(y, y_pred)`, and returns the wrapped estimator's own
`score(X, y)`. -/
def PredictionError.score {X : Type} (v : PredictionError X) (Xd : X)
    (y : List ℚ) : Option (PredictionError X × ℚ) :=
  let y_pred := v.predict Xd
  (v.draw y y_pred).map (fun v1 => (v1, v.estimator.score Xd y))

/-- `PredictionError.finalize()`: sets the title
`"Prediction Error for {name}"`, the y-label `"Predicted"` and the
x-label `"Measured"`. -/
def PredictionError.finalize {X : Type} (v : PredictionError X) :
    PredictionError X :=
  let ax1 := v.ax.set_title ("Prediction Error for " ++ v.name)
  let ax2 := ax1.set_ylabel "Predicted"
  let ax3 := ax2.set_xlabel "Measured"
  { v with ax := ax3 }

/-- `prediction_error(model, X, y, ax, **kwargs)`: constructs a
`PredictionError` visualizer, splits the data with the external
`train_test_split` at `test_size=0.2` (the splitter is the parameter
`split`, applied at fraction `1/5`), fits on the training subset,
scores on the held-out subset, finalizes, and returns the visualizer's
axes. -/
def prediction_error {X : Type}
    (split : X → List ℚ → ℚ → X × X × List ℚ × List ℚ)
    (fitEst : Estimator X → X → List ℚ → Estimator X)
    (model : Estimator X) (ax : Axes) (kwargs : Kwargs)
    (Xd : X) (y : List ℚ) : Option Axes :=
  let visualizer := (PredictionError.init model ax kwargs).2
  match split Xd y (1/5) with
  | (X_train, X_test, y_train, y_test) =>
    let v1 := PredictionError.fit fitEst visualizer X_train y_train
    (v1.score X_test y_test).map (fun p => (PredictionError.finalize p.1).ax)

/-- The color configuration of `ResidualsPlot`: `train_point` defaults
to `'b'`, `test_point` to `'g'`, `line` to `LINE_COLOR`. -/
structure RPColors where
  train_point : Color
  test_point : Color
  line : Color
deriving DecidableEq

/-- The state of a `ResidualsPlot` visualizer instance. -/
structure ResidualsPlot (X : Type) where
  estimator : Estimator X
  ax : Axes
  colors : RPColors
  name : String

/-- `ResidualsPlot.__init__(model, ax, **kwargs)`: invokes the base
initializer with the full keyword set (recorded in the first component
of the result), then populates `self.colors` by popping `train_color`
(default `'b'`), `test_color` (default `'g'`) and `line_color`
(default `LINE_COLOR`). -/
def ResidualsPlot.init {X : Type} (model : Estimator X) (ax : Axes)
    (kwargs : Kwargs) : Kwargs × ResidualsPlot X :=
  (kwargs,
   { estimator := model, ax := ax, name := model.name,
     colors := { train_point := (List.lookup "train_color" kwargs).getD "b",
                 test_point := (List.lookup "test_color" kwargs).getD "g",
                 line := (List.lookup "line_color" kwargs).getD LINE_COLOR } })

/-- Modelled from the spec: the shared base visualizer's `predict`,
inherited by `ResidualsPlot`; it delegates to the wrapped estimator. -/
def ResidualsPlot.predict {X : Type} (v : ResidualsPlot X) (Xd : X) :
    List ℚ :=
  v.estimator.predict Xd

/-- `ResidualsPlot.draw(y_pred, residuals, train)`: scatters the points
`(y_pred[i], residuals[i])` with `s=40`; the color is the configured
`train_point` color at `alpha=0.5` when `train` is true, else the
configured `test_point` color at `alpha=1.0`. -/
def ResidualsPlot.draw {X : Type} (v : ResidualsPlot X)
    (y_pred residuals : List ℚ) (train : Bool) : ResidualsPlot X :=
  let color := if train then v.colors.train_point else v.colors.test_point
  let alpha : ℚ := if train then 1/2 else 1
  { v with ax := v.ax.scatter y_pred residuals (some color) (some 40) (some alpha) }

/-- `ResidualsPlot.score(X, y, train)`: computes
`y_pred = self.predict(X)`, `scores = y_pred - y`, and calls
`self.draw(y_pred, scores, train)`; `none` models the shape error the
numeric backend raises on mismatched lengths. -/
def ResidualsPlot.score {X : Type} (v : ResidualsPlot X) (Xd : X)
    (y : List ℚ) (train : Bool) : Option (ResidualsPlot X) :=
  let y_pred := v.predict Xd
  (npSub y_pred y).map (fun scores => v.draw y_pred scores train)

/-- `ResidualsPlot.fit(X, y)`: delegates to the base estimator-fitting
behavior (modelled from the spec as the external function `fitEst`),
then immediately calls `self.score(X, y, train=True)`. -/
def ResidualsPlot.fit {X : Type} (fitEst : Estimator X → X → List ℚ → Estimator X)
    (v : ResidualsPlot X) (Xd : X) (y : List ℚ) : Option (ResidualsPlot X) :=
  let v1 : ResidualsPlot X := { v with estimator := fitEst v.estimator Xd y }
  v1.score Xd y true

/-- `ResidualsPlot.finalize()`: sets the title
`"Residuals for {name} Model"`, sets the fixed two-entry legend, draws
a full-width horizontal line at zero error in the configured line
color, and sets the axis labels. -/
def ResidualsPlot.finalize {X : Type} (v : ResidualsPlot X) :
    ResidualsPlot X :=
  let ax1 := v.ax.set_title ("Residuals for " ++ v.name ++ " Model")
  let ax2 := ax1.set_legend ["Training Data", "Test Data"] "best" true
  let ax3 := ax2.axhline 0 v.colors.line
  let ax4 := ax3.set_ylabel "Residuals"
  let ax5 := ax4.set_xlabel "Predicted Value"
  { v with ax := ax5 }

/-- `residuals_plot(model, X, y, ax, **kwargs)`: constructs a
`ResidualsPlot` visualizer, splits the data with the external
`train_test_split` at `test_size=0.2` (the splitter is the parameter
`split`, applied at fraction `1/5`), fits on the training subset
(which also draws the training residuals), scores on the held-out
subset, finalizes, and returns the visualizer's axes. -/
def residuals_plot {X : Type}
    (split : X → List ℚ → ℚ → X × X × List ℚ × List ℚ)
    (fitEst : Estimator X → X → List ℚ → Estimator X)
    (model : Estimator X) (ax : Axes) (kwargs : Kwargs)
    (Xd : X) (y : List ℚ) : Option Axes :=
  let visualizer := (ResidualsPlot.init model ax kwargs).2
  match split Xd y (1/5) with
  | (X_train, X_test, y_train, y_test) =>
    (ResidualsPlot.fit fitEst visualizer X_train y_train).bind (fun v1 =>
      (v1.score X_test y_test false).map (fun v2 =>
        (ResidualsPlot.finalize v2).ax))

/-! ### Concrete fixtures for the closed evaluation theorems -/

/-- A concrete estimator on a trivial feature type, used by the closed
evaluation theorems: it predicts `[5, 6]` and scores `7/10`. -/
def testEst : Estimator Unit :=
  { name := "Lasso", predict := fun _ => [5, 6], score := fun _ _ => 7/10 }

/-- A `PredictionError` visualizer built on a fresh surface with no
keyword arguments. -/
def testPE : PredictionError Unit :=
  (PredictionError.init testEst emptyAxes []).2

/-- A `ResidualsPlot` visualizer built on a fresh surface with no
keyword arguments. -/
def testRP : ResidualsPlot Unit :=
  (ResidualsPlot.init testEst emptyAxes []).2

/-- A trivial estimator-fitting function for the closed tests. -/
def testFit : Estimator Unit → Unit → List ℚ → Estimator Unit :=
  fun e _ _ => e

/-! ### Helper lemmas about the numeric primitives -/

lemma npSub_some {xs : List ℚ} : ∀ {ys r : List ℚ}, npSub xs ys = some r →
    xs.length = ys.length ∧ r = List.zipWith (fun a b => a - b) xs ys := by
  induction xs with
  | nil =>
    intro ys r h
    cases ys with
    | nil =>
      simp only [npSub, Option.some.injEq] at h
      simp [← h]
    | cons b bs => simp [npSub] at h
  | cons a xs ih =>
    intro ys r h
    cases ys with
    | nil => simp [npSub] at h
    | cons b bs =>
      simp only [npSub] at h
      cases hr : npSub xs bs with
      | none => rw [hr] at h; simp at h
      | some r0 =>
        rw [hr] at h
        simp only [Option.map_some', Option.some.injEq] at h
        obtain ⟨h1, h2⟩ := ih hr
        subst h
        simp [List.zipWith, h1, ← h2]

lemma foldl_min_le_init : ∀ (xs : List ℚ) (x : ℚ), xs.foldl min x ≤ x := by
  intro xs
  induction xs with
  | nil => intro x; simp
  | cons c cs ih =>
    intro x
    calc (c :: cs).foldl min x = cs.foldl min (min x c) := rfl
    _ ≤ min x c := ih (min x c)
    _ ≤ x := min_le_left _ _

lemma foldl_min_le_mem : ∀ (xs : List ℚ) (x a : ℚ), a ∈ xs →
    xs.foldl min x ≤ a := by
  intro xs
  induction xs with
  | nil => intro x a ha; simp at ha
  | cons c cs ih =>
    intro x a ha
    rcases List.mem_cons.mp ha with h | h
    · subst h
      calc (a :: cs).foldl min x = cs.foldl min (min x a) := rfl
      _ ≤ min x a := foldl_min_le_init cs (min x a)
      _ ≤ a := min_le_right _ _
    · exact ih (min x c) a h

lemma init_le_foldl_max : ∀ (xs : List ℚ) (x : ℚ), x ≤ xs.foldl max x := by
  intro xs
  induction xs with
  | nil => intro x; simp
  | cons c cs ih =>
    intro x
    calc x ≤ max x c := le_max_left _ _
    _ ≤ cs.foldl max (max x c) := ih (max x c)
    _ = (c :: cs).foldl max x := rfl

lemma mem_le_foldl_max : ∀ (xs : List ℚ) (x a : ℚ), a ∈ xs →
    a ≤ xs.foldl max x := by
  intro xs
  induction xs with
  | nil => intro x a ha; simp at ha
  | cons c cs ih =>
    intro x a ha
    rcases List.mem_cons.mp ha with h | h
    · subst h
      calc a ≤ max x a := le_max_right _ _
      _ ≤ cs.foldl max (max x a) := init_le_foldl_max cs (max x a)
      _ = (a :: cs).foldl max x := rfl
    · exact ih (max x c) a h

lemma npMin_le {y : List ℚ} {m : ℚ} (h : npMin y = some m) :
    ∀ a ∈ y, m ≤ a := by
  cases y with
  | nil => simp [npMin] at h
  | cons x xs =>
    simp only [npMin, Option.some.injEq] at h
    subst h
    intro a ha
    rcases List.mem_cons.mp ha with h | h
    · subst h; exact foldl_min_le_init xs a
    · exact foldl_min_le_mem xs x a h

lemma le_npMax {y : List ℚ} {m : ℚ} (h : npMax y = some m) :
    ∀ a ∈ y, a ≤ m := by
  cases y with
  | nil => simp [npMax] at h
  | cons x xs =>
    simp only [npMax, Option.some.injEq] at h
    subst h
    intro a ha
    rcases List.mem_cons.mp ha with h | h
    · subst h; exact init_le_foldl_max xs a
    · exact mem_le_foldl_max xs x a h

/-! ### Claim theorems -/

/-- C1: for every input matrix `X` and target vector `y`,
`PredictionError.score` first computes `y_pred = estimator.predict(X)`,
then calls `draw(y, y_pred)`, and returns exactly the value of the
wrapped estimator's own `score(X, y)`, unmodified. -/
theorem predictionError_score_delegates {X : Type} (v : PredictionError X)
    (Xd : X) (y : List ℚ) (p : PredictionError X × ℚ)
    (h : PredictionError.score v Xd y = some p) :
    p.2 = v.estimator.score Xd y ∧
    PredictionError.draw v y (v.estimator.predict Xd) = some p.1 ∧
    PredictionError.score v Xd y =
      (PredictionError.draw v y (v.estimator.predict Xd)).map
        (fun v1 => (v1, v.estimator.score Xd y)) := by
  refine ⟨?_, ?_, rfl⟩ <;>
  · simp only [PredictionError.score, PredictionError.predict] at h
    cases hd : PredictionError.draw v y (v.estimator.predict Xd) with
    | none => rw [hd] at h; simp at h
    | some v1 =>
      rw [hd] at h
      simp only [Option.map_some', Option.some.injEq] at h
      simp [← h]

/-- C1 witness: the drawn state and returned metric of
`PredictionError.score` on a concrete fitted estimator. -/
def wC1p : PredictionError Unit × ℚ :=
  (PredictionError.score testPE () [4, 8]).getD (testPE, 0)

/-- C1 at a concrete input: scoring `testPE` on targets `[4, 8]` draws
`(y, y_pred)` and returns the estimator's own metric `7/10`. -/
theorem predictionError_score_delegates_check :
    wC1p.2 = testEst.score () [4, 8] ∧
    PredictionError.draw testPE [4, 8] (testEst.predict ()) = some wC1p.1 ∧
    PredictionError.score testPE () [4, 8] =
      (PredictionError.draw testPE [4, 8] (testEst.predict ())).map
        (fun v1 => (v1, testEst.score () [4, 8])) :=
  predictionError_score_delegates testPE () [4, 8] wC1p rfl

/-- C2: `ResidualsPlot.score` computes `residuals = predict(X) - y`
element-wise and passes `(y_pred, residuals)` to `draw`, so the scatter
point for every index `i` is `(predictions[i], residuals[i])`; with
`train=False` the appended series carries the test color at full
opacity. -/
theorem residualsPlot_score_residuals {X : Type} (v : ResidualsPlot X)
    (Xd : X) (y res : List ℚ)
    (h : npSub (v.estimator.predict Xd) y = some res) :
    ResidualsPlot.score v Xd y false =
      some (ResidualsPlot.draw v (v.estimator.predict Xd) res false) ∧
    (∀ i (h1 : i < res.length) (h2 : i < (v.estimator.predict Xd).length)
        (h3 : i < y.length),
      res.get ⟨i, h1⟩ = (v.estimator.predict Xd).get ⟨i, h2⟩ - y.get ⟨i, h3⟩) ∧
    (ResidualsPlot.draw v (v.estimator.predict Xd) res false).ax.scatters =
      v.ax.scatters ++ [⟨v.estimator.predict Xd, res,
        some v.colors.test_point, some 40, some 1⟩] := by
  obtain ⟨hlen, hres⟩ := npSub_some h
  refine ⟨?_, ?_, rfl⟩
  · simp only [ResidualsPlot.score, ResidualsPlot.predict, h, Option.map_some']
  · intro i h1 h2 h3
    subst hres
    simp [List.get_eq_getElem, List.getElem_zipWith]

/-- C2 witness fixture: the residuals of predictions `[5, 6]` against
targets `[4, 8]`. -/
def wC2res : List ℚ := (npSub (testEst.predict ()) [4, 8]).getD []

/-- C2 at the spec's concrete scenario: predictions `[5, 6]` and targets
`[4, 8]` give residuals `[1, -2]`, scattered as `(5, 1)` and `(6, -2)`
in the test color at full opacity. -/
theorem residualsPlot_score_residuals_check :
    (ResidualsPlot.score testRP () [4, 8] false =
      some (ResidualsPlot.draw testRP (testEst.predict ()) wC2res false) ∧
    (∀ i (h1 : i < wC2res.length) (h2 : i < (testEst.predict ()).length)
        (h3 : i < [(4 : ℚ), 8].length),
      wC2res.get ⟨i, h1⟩ =
        (testEst.predict ()).get ⟨i, h2⟩ - [(4 : ℚ), 8].get ⟨i, h3⟩) ∧
    (ResidualsPlot.draw testRP (testEst.predict ()) wC2res false).ax.scatters =
      testRP.ax.scatters ++ [⟨testEst.predict (), wC2res,
        some testRP.colors.test_point, some 40, some 1⟩]) ∧
    wC2res = [1, -2] ∧ testRP.colors.test_point = "g" :=
  ⟨residualsPlot_score_residuals testRP () [4, 8] wC2res rfl,
   by norm_num [wC2res, npSub, testEst], rfl⟩

/-- C4: whenever `PredictionError.draw` succeeds (non-empty numeric
inputs), it sets the surface's visible x-range to
`[min(y) - 1, max(y) + 1]` and its y-range to
`[min(y_pred) - 1, max(y_pred) + 1]`, where `npMin`/`npMax` are the
true minimum and maximum of the arrays. -/
theorem predictionError_draw_limits {X : Type} (v v1 : PredictionError X)
    (y y_pred : List ℚ) (h : PredictionError.draw v y y_pred = some v1) :
    v1.ax.xlim = some ((npMin y).getD 0 - 1, (npMax y).getD 0 + 1) ∧
    v1.ax.ylim =
      some ((npMin y_pred).getD 0 - 1, (npMax y_pred).getD 0 + 1) ∧
    (∀ a ∈ y, (npMin y).getD 0 ≤ a ∧ a ≤ (npMax y).getD 0) ∧
    (∀ a ∈ y_pred,
      (npMin y_pred).getD 0 ≤ a ∧ a ≤ (npMax y_pred).getD 0) := by
  unfold PredictionError.draw at h
  cases hy1 : npMin y with
  | none => rw [hy1] at h; simp at h
  | some ymin =>
  cases hy2 : npMax y with
  | none => rw [hy1, hy2] at h; simp at h
  | some ymax =>
  cases hp1 : npMin y_pred with
  | none => rw [hy1, hy2, hp1] at h; simp at h
  | some pmin =>
  cases hp2 : npMax y_pred with
  | none => rw [hy1, hy2, hp1, hp2] at h; simp at h
  | some pmax =>
    rw [hy1, hy2, hp1, hp2] at h
    simp only [Option.some.injEq] at h
    subst h
    refine ⟨rfl, rfl, ?_, ?_⟩
    · intro a ha
      exact ⟨npMin_le hy1 a ha, le_npMax hy2 a ha⟩
    · intro a ha
      exact ⟨npMin_le hp1 a ha, le_npMax hp2 a ha⟩

/-- C4 witness fixture: the state drawn from `y = [1, 2, 3]`,
`y_pred = [11/10, 22/10, 29/10]`. -/
def wC4v : PredictionError Unit :=
  (PredictionError.draw testPE [1, 2, 3] [11/10, 22/10, 29/10]).getD testPE

/-- C4 at the spec's concrete scenario: targets `[1, 2, 3]` and
predictions `[1.1, 2.2, 2.9]` give x-range `[0, 4]` and y-range
`[0.1, 3.9]`. -/
theorem predictionError_draw_limits_check :
    (wC4v.ax.xlim =
      some ((npMin [(1 : ℚ), 2, 3]).getD 0 - 1, (npMax [(1 : ℚ), 2, 3]).getD 0 + 1) ∧
    wC4v.ax.ylim =
      some ((npMin [(11 : ℚ)/10, 22/10, 29/10]).getD 0 - 1,
            (npMax [(11 : ℚ)/10, 22/10, 29/10]).getD 0 + 1) ∧
    (∀ a ∈ [(1 : ℚ), 2, 3],
      (npMin [(1 : ℚ), 2, 3]).getD 0 ≤ a ∧ a ≤ (npMax [(1 : ℚ), 2, 3]).getD 0) ∧
    (∀ a ∈ [(11 : ℚ)/10, 22/10, 29/10],
      (npMin [(11 : ℚ)/10, 22/10, 29/10]).getD 0 ≤ a ∧
        a ≤ (npMax [(11 : ℚ)/10, 22/10, 29/10]).getD 0)) ∧
    wC4v.ax.xlim = some (0, 4) ∧ wC4v.ax.ylim = some (1/10, 39/10) :=
  ⟨predictionError_draw_limits testPE wC4v [1, 2, 3] [11/10, 22/10, 29/10] rfl,
   by norm_num [wC4v, testPE, testEst, PredictionError.init, PredictionError.draw,
     npMin, npMax, Axes.scatter, Axes.set_xlim, Axes.set_ylim, draw_best_fit,
     List.foldl],
   by norm_num [wC4v, testPE, testEst, PredictionError.init, PredictionError.draw,
     npMin, npMax, Axes.scatter, Axes.set_xlim, Axes.set_ylim, draw_best_fit,
     List.foldl]⟩

/-- C5: `ResidualsPlot.draw` appends one scatter series whose color is
the configured `train_point` color at opacity `0.5` when `train` is
true, and the configured `test_point` color at opacity `1.0` when
`train` is false, whatever colors were configured. -/
theorem residualsPlot_draw_opacity {X : Type} (v : ResidualsPlot X)
    (y_pred residuals : List ℚ) (train : Bool) :
    (ResidualsPlot.draw v y_pred residuals train).ax.scatters =
      v.ax.scatters ++ [⟨y_pred, residuals,
        some (if train then v.colors.train_point else v.colors.test_point),
        some 40,
        some (if train then (1 : ℚ)/2 else 1)⟩] := by
  cases train <;> rfl

/-- A successful `ResidualsPlot.score` leaves the colors and estimator
untouched and appends exactly one scatter series on the surface, whose
style is decided by `train`. -/
lemma residualsPlot_score_some {X : Type} {v v1 : ResidualsPlot X}
    {Xd : X} {y : List ℚ} {train : Bool}
    (h : ResidualsPlot.score v Xd y train = some v1) :
    v1.colors = v.colors ∧ v1.estimator = v.estimator ∧ ∃ scores,
      v1.ax.scatters = v.ax.scatters ++
        [⟨v.estimator.predict Xd, scores,
          some (if train then v.colors.train_point else v.colors.test_point),
          some 40, some (if train then (1 : ℚ)/2 else 1)⟩] := by
  simp only [ResidualsPlot.score, ResidualsPlot.predict] at h
  cases hs : npSub (v.estimator.predict Xd) y with
  | none => rw [hs] at h; simp at h
  | some scores =>
    rw [hs] at h
    simp only [Option.map_some', Option.some.injEq] at h
    subst h
    exact ⟨rfl, rfl, scores, by cases train <;> rfl⟩

/-- A successful `PredictionError.draw` leaves the colors, estimator and
name untouched. -/
lemma predictionError_draw_some {X : Type} {v v1 : PredictionError X}
    {y y_pred : List ℚ}
    (h : PredictionError.draw v y y_pred = some v1) :
    v1.colors = v.colors ∧ v1.estimator = v.estimator ∧
      v1.name = v.name := by
  unfold PredictionError.draw at h
  cases h1 : npMin y with
  | none => rw [h1] at h; simp at h
  | some ymin =>
  cases h2 : npMax y with
  | none => rw [h1, h2] at h; simp at h
  | some ymax =>
  cases h3 : npMin y_pred with
  | none => rw [h1, h2, h3] at h; simp at h
  | some pmin =>
  cases h4 : npMax y_pred with
  | none => rw [h1, h2, h3, h4] at h; simp at h
  | some pmax =>
    rw [h1, h2, h3, h4] at h
    simp only [Option.some.injEq] at h
    subst h
    exact ⟨rfl, rfl, rfl⟩

/-- C3: `ResidualsPlot.fit` delegates to the base estimator-fitting
behavior and then immediately calls `score(X, y, train=True)`; on a
fresh surface this draws exactly one training-colored scatter series,
and it is still the first series after a subsequent test-scoring call. -/
theorem residualsPlot_fit_train_first {X : Type}
    (fitEst : Estimator X → X → List ℚ → Estimator X)
    (v v1 v2 : ResidualsPlot X) (X1 X2 : X) (y1 y2 : List ℚ)
    (h0 : v.ax.scatters = [])
    (h1 : ResidualsPlot.fit fitEst v X1 y1 = some v1)
    (h2 : ResidualsPlot.score v1 X2 y2 false = some v2) :
    ResidualsPlot.score { v with estimator := fitEst v.estimator X1 y1 }
      X1 y1 true = some v1 ∧
    (∃ sc : ScatterSeries, v1.ax.scatters = [sc] ∧
      sc.c = some v.colors.train_point ∧ sc.alpha = some ((1 : ℚ)/2)) ∧
    (∃ sc1 sc2 : ScatterSeries, v2.ax.scatters = [sc1, sc2] ∧
      sc1.c = some v.colors.train_point ∧ sc1.alpha = some ((1 : ℚ)/2) ∧
      sc2.c = some v.colors.test_point ∧ sc2.alpha = some 1) := by
  have hfit : ResidualsPlot.score
      { v with estimator := fitEst v.estimator X1 y1 } X1 y1 true = some v1 := h1
  obtain ⟨hc1, he1, scores1, hs1⟩ := residualsPlot_score_some hfit
  obtain ⟨hc2, he2, scores2, hs2⟩ := residualsPlot_score_some h2
  have hv1c : v1.colors = v.colors := hc1
  have hsc1 : v1.ax.scatters =
      [⟨(fitEst v.estimator X1 y1).predict X1, scores1,
        some v.colors.train_point, some 40, some ((1 : ℚ)/2)⟩] := by
    rw [hs1]
    show v.ax.scatters ++ _ = _
    rw [h0]
    rfl
  refine ⟨hfit, ⟨_, hsc1, rfl, rfl⟩, ?_⟩
  refine ⟨⟨(fitEst v.estimator X1 y1).predict X1, scores1,
      some v.colors.train_point, some 40, some ((1 : ℚ)/2)⟩,
    ⟨v1.estimator.predict X2, scores2, some v1.colors.test_point,
      some 40, some 1⟩, ?_, rfl, rfl, ?_, rfl⟩
  · rw [hs2, hsc1]
    rfl
  · show some v1.colors.test_point = _
    rw [hv1c]

/-- C3 witness fixture: the visualizer state right after `fit`. -/
def wC3v1 : ResidualsPlot Unit :=
  (ResidualsPlot.fit testFit testRP () [4, 8]).getD testRP

/-- C3 witness fixture: the state after `fit` and one test `score`. -/
def wC3v2 : ResidualsPlot Unit :=
  (ResidualsPlot.score wC3v1 () [4, 8] false).getD wC3v1

/-- C3 at a concrete lifecycle: `fit` on a fresh surface draws exactly
one training series, which is still first after the test scoring. -/
theorem residualsPlot_fit_train_first_check :
    ResidualsPlot.score
      { testRP with estimator := testFit testRP.estimator () [4, 8] }
      () [4, 8] true = some wC3v1 ∧
    (∃ sc : ScatterSeries, wC3v1.ax.scatters = [sc] ∧
      sc.c = some testRP.colors.train_point ∧ sc.alpha = some ((1 : ℚ)/2)) ∧
    (∃ sc1 sc2 : ScatterSeries, wC3v2.ax.scatters = [sc1, sc2] ∧
      sc1.c = some testRP.colors.train_point ∧
      sc1.alpha = some ((1 : ℚ)/2) ∧
      sc2.c = some testRP.colors.test_point ∧ sc2.alpha = some 1) :=
  residualsPlot_fit_train_first testFit testRP wC3v1 wC3v2 () () [4, 8] [4, 8]
    rfl rfl rfl

/-- C6: each quick method constructs its visualizer, splits the data at
a held-out fraction of `1/5`, fits on the training subset, scores on
the held-out subset, finalizes, and returns the visualizer's axes. -/
theorem quick_methods_pipeline {X : Type}
    (split : X → List ℚ → ℚ → X × X × List ℚ × List ℚ)
    (fitEst : Estimator X → X → List ℚ → Estimator X)
    (model : Estimator X) (ax : Axes) (kwargs : Kwargs)
    (Xd : X) (y : List ℚ) (X_train X_test : X) (y_train y_test : List ℚ)
    (hsplit : split Xd y (1/5) = (X_train, X_test, y_train, y_test)) :
    prediction_error split fitEst model ax kwargs Xd y =
      (PredictionError.score
        (PredictionError.fit fitEst (PredictionError.init model ax kwargs).2
          X_train y_train) X_test y_test).map
        (fun p => (PredictionError.finalize p.1).ax) ∧
    residuals_plot split fitEst model ax kwargs Xd y =
      (ResidualsPlot.fit fitEst (ResidualsPlot.init model ax kwargs).2
        X_train y_train).bind (fun v1 =>
          (ResidualsPlot.score v1 X_test y_test false).map (fun v2 =>
            (ResidualsPlot.finalize v2).ax)) := by
  constructor
  · unfold prediction_error
    rw [hsplit]
  · unfold residuals_plot
    rw [hsplit]

/-- C6 witness fixture: a concrete data splitter. -/
def wSplit : Unit → List ℚ → ℚ → Unit × Unit × List ℚ × List ℚ :=
  fun _ _ _ => ((), (), [3, 4], [5, 6])

/-- C6 at a concrete input: both quick methods run the
construct/split/fit/score/finalize pipeline. -/
theorem quick_methods_pipeline_check :
    prediction_error wSplit testFit testEst emptyAxes [] () [3, 4, 5, 6] =
      (PredictionError.score
        (PredictionError.fit testFit
          (PredictionError.init testEst emptyAxes []).2 () [3, 4])
        () [5, 6]).map (fun p => (PredictionError.finalize p.1).ax) ∧
    residuals_plot wSplit testFit testEst emptyAxes [] () [3, 4, 5, 6] =
      (ResidualsPlot.fit testFit
        (ResidualsPlot.init testEst emptyAxes []).2 () [3, 4]).bind
        (fun v1 => (ResidualsPlot.score v1 () [5, 6] false).map (fun v2 =>
          (ResidualsPlot.finalize v2).ax)) :=
  quick_methods_pipeline wSplit testFit testEst emptyAxes [] ()
    [3, 4, 5, 6] () () [3, 4] [5, 6] rfl

/-- C7: at construction each visualizer's color mapping is fully
populated (supplied color or default for every key), and no later
operation — fit, score, draw, finalize — changes any entry of it. -/
theorem colors_complete_and_immutable {X : Type} (model : Estimator X)
    (ax : Axes) (kwargs : Kwargs)
    (fitEst : Estimator X → X → List ℚ → Estimator X)
    (v vd : PredictionError X) (p : PredictionError X × ℚ)
    (w wf ws : ResidualsPlot X) (Xd Xf Xs : X)
    (y yp yd yf ys : List ℚ) (train : Bool)
    (hd : PredictionError.draw v y yp = some vd)
    (hp : PredictionError.score v Xd y = some p)
    (hf : ResidualsPlot.fit fitEst w Xf yf = some wf)
    (hs : ResidualsPlot.score w Xs ys train = some ws) :
    ((PredictionError.init model ax kwargs).2).colors =
      ⟨List.lookup "point_color" kwargs,
       (List.lookup "line_color" kwargs).getD LINE_COLOR⟩ ∧
    ((ResidualsPlot.init model ax kwargs).2).colors =
      ⟨(List.lookup "train_color" kwargs).getD "b",
       (List.lookup "test_color" kwargs).getD "g",
       (List.lookup "line_color" kwargs).getD LINE_COLOR⟩ ∧
    vd.colors = v.colors ∧ p.1.colors = v.colors ∧
    (PredictionError.fit fitEst v Xd y).colors = v.colors ∧
    (PredictionError.finalize v).colors = v.colors ∧
    wf.colors = w.colors ∧ ws.colors = w.colors ∧
    (ResidualsPlot.draw w yp yd train).colors = w.colors ∧
    (ResidualsPlot.finalize w).colors = w.colors := by
  refine ⟨rfl, rfl, (predictionError_draw_some hd).1, ?_, rfl, rfl,
    (residualsPlot_score_some hf).1, (residualsPlot_score_some hs).1,
    rfl, rfl⟩
  simp only [PredictionError.score, PredictionError.predict] at hp
  cases hdr : PredictionError.draw v y (v.estimator.predict Xd) with
  | none => rw [hdr] at hp; simp at hp
  | some v1 =>
    rw [hdr] at hp
    simp only [Option.map_some', Option.some.injEq] at hp
    rw [← hp]
    exact (predictionError_draw_some hdr).1

/-- C7 witness fixture: a `PredictionError` state after `draw`. -/
def wC7d : PredictionError Unit :=
  (PredictionError.draw testPE [4, 8] [5, 6]).getD testPE

/-- C7 witness fixture: a `PredictionError` score result. -/
def wC7p : PredictionError Unit × ℚ :=
  (PredictionError.score testPE () [4, 8]).getD (testPE, 0)

/-- C7 witness fixture: a `ResidualsPlot` state after `fit`. -/
def wC7f : ResidualsPlot Unit :=
  (ResidualsPlot.fit testFit testRP () [4, 8]).getD testRP

/-- C7 witness fixture: a `ResidualsPlot` state after `score`. -/
def wC7s : ResidualsPlot Unit :=
  (ResidualsPlot.score testRP () [4, 8] false).getD testRP

set_option maxHeartbeats 1000000 in
/-- C7 at concrete inputs: the constructed color mappings are fully
populated and no lifecycle operation changes them. -/
theorem colors_complete_and_immutable_check :
    ((PredictionError.init testEst emptyAxes []).2).colors =
      ⟨List.lookup "point_color" [],
       (List.lookup "line_color" []).getD LINE_COLOR⟩ ∧
    ((ResidualsPlot.init testEst emptyAxes []).2).colors =
      ⟨(List.lookup "train_color" []).getD "b",
       (List.lookup "test_color" []).getD "g",
       (List.lookup "line_color" []).getD LINE_COLOR⟩ ∧
    wC7d.colors = testPE.colors ∧ wC7p.1.colors = testPE.colors ∧
    (PredictionError.fit testFit testPE () [4, 8]).colors = testPE.colors ∧
    (PredictionError.finalize testPE).colors = testPE.colors ∧
    wC7f.colors = testRP.colors ∧ wC7s.colors = testRP.colors ∧
    (ResidualsPlot.draw testRP [5, 6] [1, -2] false).colors =
      testRP.colors ∧
    (ResidualsPlot.finalize testRP).colors = testRP.colors :=
  colors_complete_and_immutable testEst emptyAxes [] testFit testPE wC7d
    wC7p testRP wC7f wC7s () () () [4, 8] [5, 6] [1, -2] [4, 8] [4, 8]
    false rfl rfl rfl rfl

set_option maxHeartbeats 1000000 in
/-- C8: `finalize` is idempotent for the title and axis labels on both
visualizers: a second call leaves them equal to a single call's. -/
theorem finalize_idempotent_text {X : Type} (v : PredictionError X)
    (w : ResidualsPlot X) :
    ((PredictionError.finalize (PredictionError.finalize v)).ax.title =
        (PredictionError.finalize v).ax.title ∧
      (PredictionError.finalize (PredictionError.finalize v)).ax.xlabel =
        (PredictionError.finalize v).ax.xlabel ∧
      (PredictionError.finalize (PredictionError.finalize v)).ax.ylabel =
        (PredictionError.finalize v).ax.ylabel) ∧
    ((ResidualsPlot.finalize (ResidualsPlot.finalize w)).ax.title =
        (ResidualsPlot.finalize w).ax.title ∧
      (ResidualsPlot.finalize (ResidualsPlot.finalize w)).ax.xlabel =
        (ResidualsPlot.finalize w).ax.xlabel ∧
      (ResidualsPlot.finalize (ResidualsPlot.finalize w)).ax.ylabel =
        (ResidualsPlot.finalize w).ax.ylabel) :=
  ⟨⟨rfl, rfl, rfl⟩, ⟨rfl, rfl, rfl⟩⟩

/-- C9: every call to `ResidualsPlot.finalize` appends one full-width
horizontal line at residual `0` in the configured line color, so `k`
calls leave `k` more such lines on the surface — this part of
`finalize` is not idempotent. -/
theorem residualsPlot_finalize_hline_accumulates {X : Type}
    (v : ResidualsPlot X) (k : ℕ) :
    (ResidualsPlot.finalize v).ax.hlines =
      v.ax.hlines ++ [⟨0, v.colors.line⟩] ∧
    (ResidualsPlot.finalize^[k] v).ax.hlines =
      v.ax.hlines ++ List.replicate k ⟨0, v.colors.line⟩ := by
  refine ⟨rfl, ?_⟩
  induction k generalizing v with
  | zero => simp
  | succ n ih =>
    rw [Function.iterate_succ_apply, ih]
    have hc : (ResidualsPlot.finalize v).colors.line = v.colors.line := rfl
    have hh : (ResidualsPlot.finalize v).ax.hlines =
        v.ax.hlines ++ [⟨0, v.colors.line⟩] := rfl
    rw [hc, hh, List.append_assoc, List.singleton_append,
      ← List.replicate_succ]

/-- C10: both constructors hand the base-class initializer the full
keyword set before popping the color keywords, so every supplied color
keyword is both forwarded to the base initializer and used to populate
the visualizer's own color mapping. -/
theorem init_forwards_color_kwargs {X : Type} (model : Estimator X)
    (ax : Axes) (kwargs : Kwargs) (c1 c2 c3 c4 c5 : Color) :
    (PredictionError.init model ax kwargs).1 = kwargs ∧
    (ResidualsPlot.init model ax kwargs).1 = kwargs ∧
    (List.lookup "point_color" kwargs = some c1 →
      List.lookup "point_color" (PredictionError.init model ax kwargs).1 =
        some c1 ∧
      ((PredictionError.init model ax kwargs).2).colors.point = some c1) ∧
    (List.lookup "line_color" kwargs = some c2 →
      List.lookup "line_color" (PredictionError.init model ax kwargs).1 =
        some c2 ∧
      ((PredictionError.init model ax kwargs).2).colors.line = c2) ∧
    (List.lookup "train_color" kwargs = some c3 →
      List.lookup "train_color" (ResidualsPlot.init model ax kwargs).1 =
        some c3 ∧
      ((ResidualsPlot.init model ax kwargs).2).colors.train_point = c3) ∧
    (List.lookup "test_color" kwargs = some c4 →
      List.lookup "test_color" (ResidualsPlot.init model ax kwargs).1 =
        some c4 ∧
      ((ResidualsPlot.init model ax kwargs).2).colors.test_point = c4) ∧
    (List.lookup "line_color" kwargs = some c5 →
      List.lookup "line_color" (ResidualsPlot.init model ax kwargs).1 =
        some c5 ∧
      ((ResidualsPlot.init model ax kwargs).2).colors.line = c5) := by
  refine ⟨rfl, rfl, ?_, ?_, ?_, ?_, ?_⟩ <;>
  · intro h
    exact ⟨h, by simp [PredictionError.init, ResidualsPlot.init, h]⟩

/-- C10 witness fixture: keyword arguments supplying every color key. -/
def wKW : Kwargs :=
  [("point_color", "r"), ("line_color", "k"),
   ("train_color", "c"), ("test_color", "m")]

/-- C10 at a concrete keyword set: supplied colors reach both the base
initializer and the visualizer's own color mapping. -/
theorem init_forwards_color_kwargs_check :
    List.lookup "point_color" (PredictionError.init testEst emptyAxes wKW).1 =
      some "r" ∧
    ((PredictionError.init testEst emptyAxes wKW).2).colors.point =
      some "r" ∧
    List.lookup "line_color" (PredictionError.init testEst emptyAxes wKW).1 =
      some "k" ∧
    ((PredictionError.init testEst emptyAxes wKW).2).colors.line = "k" ∧
    ((ResidualsPlot.init testEst emptyAxes wKW).2).colors.train_point =
      "c" ∧
    ((ResidualsPlot.init testEst emptyAxes wKW).2).colors.test_point =
      "m" ∧
    ((ResidualsPlot.init testEst emptyAxes wKW).2).colors.line = "k" := by
  obtain ⟨-, -, h1, h2, h3, h4, h5⟩ :=
    init_forwards_color_kwargs (X := Unit) testEst emptyAxes wKW
      "r" "k" "c" "m" "k"
  refine ⟨(h1 ?_).1, (h1 ?_).2, (h2 ?_).1, (h2 ?_).2, (h3 ?_).2,
    (h4 ?_).2, (h5 ?_).2⟩ <;> rfl

end Yellowbrick
